import Mathlib

/-!
Verification development for the cyclone workflow-controller sources:
the stage workload processor (Process / processPod / processDelegation),
the controller configuration loader (LoadConfig / validate), and the
project list handler (ListProjects).

Stateful Go code is embedded as pure functions from explicit inputs
(the results of external calls are passed in as parameters) to a trace of
observable effects (event emissions, status writes, watcher launches)
together with the returned error, mirroring the Go control flow.
-/

namespace Cyclone

/-- Modelled from the spec: the stage status phases
Waiting, Running, Pending, Failed, Succeeded (the v1alpha1 StatusPhase
constants are declared outside the available sources). -/
inductive StatusPhase
  | waiting
  | running
  | pending
  | failed
  | succeeded
deriving DecidableEq, Repr

/-- Modelled from the spec: util.IsPhaseTerminated is not among the available
sources; per the spec the terminal phases are Failed and Succeeded. -/
def IsPhaseTerminated : StatusPhase → Bool
  | .failed => true
  | .succeeded => true
  | _ => false

/-- The v1alpha1.Status record written by UpdateStageStatus: phase, reason,
last transition time (time.Now at the write site, passed in as a Nat clock)
and human message. -/
structure Status where
  phase : StatusPhase
  reason : String
  lastTransitionTime : Nat
  message : String
deriving DecidableEq, Repr

/-- The v1alpha1.PodInfo record written by UpdateStagePodInfo. -/
structure PodInfo where
  name : String
  ns : String
deriving DecidableEq, Repr

/-- Per-stage entry of WorkflowRun.Status.Stages; the Go StageStatus carries
the Status record in its Status field. -/
structure StageStatus where
  status : Status
deriving DecidableEq, Repr

/-- The WorkflowRun fields read by the processor: identity plus the
Status.Stages map, embedded as an association list keyed by stage name. -/
structure WorkflowRun where
  name : String
  ns : String
  statusStages : List (String × StageStatus)
deriving DecidableEq, Repr

/-- Stage.Spec.Pod payload (a pod workload template; its contents are only
consumed by the pod builder, which is abstracted as an input). -/
structure PodWorkload where
  marker : Unit
deriving DecidableEq, Repr

/-- Stage.Spec.Delegation payload: the delegation URL. -/
structure DelegationWorkload where
  url : String
deriving DecidableEq, Repr

/-- Stage.Spec with the two optional workload kinds (Go uses two nilable
pointers, so both-set and neither-set are representable). -/
structure StageSpec where
  pod : Option PodWorkload
  delegation : Option DelegationWorkload
deriving DecidableEq, Repr

/-- The stage definition fields the processor reads. -/
structure Stage where
  name : String
  ns : String
  spec : StageSpec
deriving DecidableEq, Repr

/-- Event types of the recorder sink (corev1.EventTypeNormal / Warning). -/
inductive EventType
  | normal
  | warning
deriving DecidableEq, Repr

/-- Observable effects of one processor execution, in program order:
recorder events, Operator status / pod-info writes, the pod event watcher
launch (the go statement), the delegation call and the WorkflowRun re-read. -/
inductive Effect
  | event (etype : EventType) (reason : String) (message : String)
  | updateStageStatus (stage : String) (status : Status)
  | updateStagePodInfo (stage : String) (info : PodInfo)
  | startPodEventWatcher (stage : String) (ns : String) (podName : String)
  | delegate (url : String)
  | getLatestWorkflowRun
deriving DecidableEq, Repr

/-- The created pod identity as returned by the cluster create call. -/
structure BuiltPod where
  name : String
  ns : String
deriving DecidableEq, Repr

/-- A pod submission error together with its quota classification.
Modelled from the spec: isExceededQuotaError is not among the available
sources; per the spec submission failures carry a distinguishable
quota-exceeded condition, embedded here as the exceededQuota flag. -/
structure CreatePodError where
  msg : String
  exceededQuota : Bool
deriving DecidableEq, Repr

/-- Results of the external calls made by processPod — the pod builder
(pod.NewBuilder(...).Build()) and the cluster pod create call — plus the
wall clock read by time.Now at the status-write sites. -/
structure PodEnv where
  buildResult : Except String BuiltPod
  createResult : Except CreatePodError BuiltPod
  now : Nat
deriving Repr

/-- Results of the external calls made by processDelegation — the
delegation.Delegate POST and the WorkflowRuns Get re-read — plus the wall
clock read by time.Now at the status-write sites. -/
structure DelegationEnv where
  delegateResult : Option String
  getLatestResult : Except String WorkflowRun
  now : Nat
deriving Repr

/-- Results the Operator would return for the status / pod-info writes.
The Go call sites invoke these methods in statement position, discarding
any results, so the processor definitions bind and drop these values
exactly where the Go calls occur. -/
structure OperatorOutcome where
  updateStageStatusResult : String → Status → Except String Unit
  updateStagePodInfoResult : String → PodInfo → Except String Unit

/-- processPod: build the pod manifest, submit it, and on success emit the
StagePodCreated event, launch the pod event watcher, then write the
Running status and the PodInfo. Returns the effect trace in program order
and the Go error return. -/
def processPod (stg : Stage) (env : PodEnv) (oc : OperatorOutcome) :
    List Effect × Option String :=
  match env.buildResult with
  | .error e =>
      let _ := oc.updateStageStatusResult stg.name
        { phase := .failed, reason := "GeneratePodError",
          lastTransitionTime := env.now,
          message := "Failed to generate pod: " ++ e }
      ([Effect.event .warning "GeneratePodSpecError"
          ("Generate pod for stage " ++ stg.name ++ " error: " ++ e),
        Effect.updateStageStatus stg.name
          { phase := .failed, reason := "GeneratePodError",
            lastTransitionTime := env.now,
            message := "Failed to generate pod: " ++ e }],
       some ("create pod manifest: " ++ e))
  | .ok _ =>
    match env.createResult with
    | .error e =>
        let phase := if e.exceededQuota then StatusPhase.pending else StatusPhase.failed
        let _ := oc.updateStageStatusResult stg.name
          { phase := phase, reason := "CreatePodError",
            lastTransitionTime := env.now,
            message := "Failed to create pod: " ++ e.msg }
        ([Effect.event .warning "StagePodCreated"
            ("Create pod for stage " ++ stg.name ++ " error: " ++ e.msg),
          Effect.updateStageStatus stg.name
            { phase := phase, reason := "CreatePodError",
              lastTransitionTime := env.now,
              message := "Failed to create pod: " ++ e.msg }],
         some ("create pod: " ++ e.msg))
    | .ok po =>
        let _ := oc.updateStageStatusResult stg.name
          { phase := .running, reason := "StagePodCreated",
            lastTransitionTime := env.now, message := "" }
        let _ := oc.updateStagePodInfoResult stg.name { name := po.name, ns := po.ns }
        ([Effect.event .normal "StagePodCreated"
            ("Create pod for stage " ++ stg.name ++ " succeeded"),
          Effect.startPodEventWatcher stg.name po.ns po.name,
          Effect.updateStageStatus stg.name
            { phase := .running, reason := "StagePodCreated",
              lastTransitionTime := env.now, message := "" },
          Effect.updateStagePodInfo stg.name { name := po.name, ns := po.ns }],
         none)

/-- processDelegation: issue the delegation call; on failure write the
Failed status with reason DelegationFailure and return the error; on
success emit DelegationSucceed, re-read the WorkflowRun (propagating a
re-read failure with no status write), skip the Waiting write when the
stage is already in a terminal phase, and otherwise write Waiting with
reason DelegationSucceed. -/
def processDelegation (stg : Stage) (denv : DelegationEnv) (oc : OperatorOutcome) :
    List Effect × Option String :=
  let durl := (stg.spec.delegation.map DelegationWorkload.url).getD ""
  match denv.delegateResult with
  | some e =>
      let _ := oc.updateStageStatusResult stg.name
        { phase := .failed, reason := "DelegationFailure",
          lastTransitionTime := denv.now,
          message := "Delegate error: " ++ e }
      ([Effect.delegate durl,
        Effect.event .warning "DelegationFailure"
          ("Delegate stage " ++ stg.name ++ " to " ++ durl ++ " error: " ++ e),
        Effect.updateStageStatus stg.name
          { phase := .failed, reason := "DelegationFailure",
            lastTransitionTime := denv.now,
            message := "Delegate error: " ++ e }],
       some e)
  | none =>
    match denv.getLatestResult with
    | .error e =>
        ([Effect.delegate durl,
          Effect.event .normal "DelegationSucceed"
            ("Delegate stage " ++ stg.name ++ " to " ++ durl ++ " succeeded"),
          Effect.getLatestWorkflowRun],
         some e)
    | .ok latestWfr =>
        match latestWfr.statusStages.lookup stg.name with
        | some ss =>
          if IsPhaseTerminated ss.status.phase then
            ([Effect.delegate durl,
              Effect.event .normal "DelegationSucceed"
                ("Delegate stage " ++ stg.name ++ " to " ++ durl ++ " succeeded"),
              Effect.getLatestWorkflowRun],
             none)
          else
            let _ := oc.updateStageStatusResult stg.name
              { phase := .waiting, reason := "DelegationSucceed",
                lastTransitionTime := denv.now, message := "" }
            ([Effect.delegate durl,
              Effect.event .normal "DelegationSucceed"
                ("Delegate stage " ++ stg.name ++ " to " ++ durl ++ " succeeded"),
              Effect.getLatestWorkflowRun,
              Effect.updateStageStatus stg.name
                { phase := .waiting, reason := "DelegationSucceed",
                  lastTransitionTime := denv.now, message := "" }],
             none)
        | none =>
            let _ := oc.updateStageStatusResult stg.name
              { phase := .waiting, reason := "DelegationSucceed",
                lastTransitionTime := denv.now, message := "" }
            ([Effect.delegate durl,
              Effect.event .normal "DelegationSucceed"
                ("Delegate stage " ++ stg.name ++ " to " ++ durl ++ " succeeded"),
              Effect.getLatestWorkflowRun,
              Effect.updateStageStatus stg.name
                { phase := .waiting, reason := "DelegationSucceed",
                  lastTransitionTime := denv.now, message := "" }],
             none)

/-- Process: validate exactly one workload kind is configured, then
dispatch to the matching realizer. -/
def Process (stg : Stage) (penv : PodEnv) (denv : DelegationEnv)
    (oc : OperatorOutcome) : List Effect × Option String :=
  if stg.spec.pod.isSome && stg.spec.delegation.isSome then
    ([], some ("exact 1 workload (pod or delegation) expected in stage "
        ++ stg.ns ++ "/" ++ stg.name ++ ", but got both"))
  else if stg.spec.pod.isNone && stg.spec.delegation.isNone then
    ([], some ("exact 1 workload (pod or delegation) expected in stage "
        ++ stg.ns ++ "/" ++ stg.name ++ ", but got none"))
  else if stg.spec.pod.isSome then
    processPod stg penv oc
  else if stg.spec.delegation.isSome then
    processDelegation stg denv oc
  else
    ([], none)

/-! Controller configuration loader (config.go). -/

/-- ConfigFileKey is the key of the config file in the ConfigMap. -/
def ConfigFileKey : String := "workflow-controller.json"

/-- GitResolverImage is the key of the git source resolver image. -/
def GitResolverImage : String := "git-resolver"

/-- ImageResolverImage is the key of the image source resolver image. -/
def ImageResolverImage : String := "image-resolver"

/-- KvResolverImage is the key of the kv source resolver image. -/
def KvResolverImage : String := "kv-resolver"

/-- CoordinatorImage is the key of the coordinator image. -/
def CoordinatorImage : String := "coordinator"

/-- LoggingConfig: logging level. -/
structure LoggingConfig where
  level : String
deriving DecidableEq, Repr

/-- GCConfig: enabled flag, delay and retry count. -/
structure GCConfig where
  enabled : Bool
  delaySeconds : Nat
  retryCount : Int
deriving DecidableEq, Repr

/-- LimitsConfig: maximum WorkflowRuns kept per Workflow. -/
structure LimitsConfig where
  maxWorkflowRuns : Int
deriving DecidableEq, Repr

/-- Default container resource requirements (corev1.ResourceRequirements),
embedded as resource-name keyed limit and request quantity lists. -/
structure ResourceRequirements where
  limits : List (String × String)
  requests : List (String × String)
deriving DecidableEq, Repr

/-- WorkflowControllerConfig: the process-wide controller configuration,
with the Images map embedded as an association list. -/
structure WorkflowControllerConfig where
  images : List (String × String)
  logging : LoggingConfig
  gc : GCConfig
  limits : LimitsConfig
  resourceRequirements : ResourceRequirements
  pvc : String
  secret : String
  cycloneServerAddr : String
deriving DecidableEq, Repr

/-- validate: every required image role key must be present in the Images
map (the empty-PVC and empty-Secret checks only emit log warnings and do
not affect the result). -/
def validate (config : WorkflowControllerConfig) : Bool :=
  [GitResolverImage, ImageResolverImage, KvResolverImage, CoordinatorImage].all
    (fun k => (config.images.lookup k).isSome)

/-- The ConfigMap fields read by LoadConfig: name and the data map. -/
structure ConfigMap where
  name : String
  data : List (String × String)
deriving DecidableEq, Repr

/-- The parsed contents of a configuration document: one optional value
per JSON key of WorkflowControllerConfig. A key absent from the document
is none and leaves the corresponding Config field untouched when the
document is unmarshaled into the existing struct. -/
structure ConfigDocument where
  images : Option (List (String × String))
  logging : Option LoggingConfig
  gc : Option GCConfig
  limits : Option LimitsConfig
  resourceRequirements : Option ResourceRequirements
  pvc : Option String
  secret : Option String
  cycloneServerAddr : Option String
deriving DecidableEq, Repr

/-- Set one key of a string map embedded as an association list:
overwrite the entry when the key exists, append it otherwise. -/
def setKey (m : List (String × String)) (k v : String) : List (String × String) :=
  if m.any (fun p => p.1 = k) then
    m.map (fun p => if p.1 = k then (k, v) else p)
  else
    m ++ [(k, v)]

/-- json.Unmarshal semantics for a map target: document entries are added
to or overwrite entries of the existing map, and existing entries absent
from the document are kept — unmarshaling never removes a map key. (A nil
current map behaves as the empty map: Unmarshal allocates a fresh one.) -/
def mergeImages (base doc : List (String × String)) : List (String × String) :=
  doc.foldl (fun acc p => setKey acc p.1 p.2) base

/-- json.Unmarshal of a configuration document into the existing Config
struct: document keys overwrite the corresponding fields, keys absent
from the document keep the current values, and the images map is merged
per key via mergeImages. -/
def unmarshalInto (doc : ConfigDocument) (current : WorkflowControllerConfig) :
    WorkflowControllerConfig :=
  { images :=
      match doc.images with
      | some im => mergeImages current.images im
      | none => current.images
    logging := doc.logging.getD current.logging
    gc := doc.gc.getD current.gc
    limits := doc.limits.getD current.limits
    resourceRequirements := doc.resourceRequirements.getD current.resourceRequirements
    pvc := doc.pvc.getD current.pvc
    secret := doc.secret.getD current.secret
    cycloneServerAddr := doc.cycloneServerAddr.getD current.cycloneServerAddr }

/-- The zero value of the process-wide Config variable, its state before
the first LoadConfig call: nil map, empty strings, zero numbers. -/
def zeroConfig : WorkflowControllerConfig :=
  { images := []
    logging := { level := "" }
    gc := { enabled := false, delaySeconds := 0, retryCount := 0 }
    limits := { maxWorkflowRuns := 0 }
    resourceRequirements := { limits := [], requests := [] }
    pvc := ""
    secret := ""
    cycloneServerAddr := "" }

/-- LoadConfig: look up the config file key in the ConfigMap, run
json.Unmarshal on its contents directly into the process-wide Config
variable, then validate. The global Config is embedded as explicit
state: the function maps the current Config to the returned error and
the new Config. parse is the JSON syntax and typing layer: none embeds a
document json.Unmarshal rejects without decoding (Unmarshal validates
the input before writing to the target, so the current value is kept);
some embeds a well-typed document, decoded into the current struct with
the merge semantics of unmarshalInto. (Documents whose fields are
ill-typed, which Go decodes partially before returning a type error, are
outside this model.) The Go code unmarshals into the global before
validating, so a decoded document replaces Config even when validation
then fails. -/
def LoadConfig (cm : ConfigMap)
    (parse : String → Option ConfigDocument)
    (current : WorkflowControllerConfig) :
    Option String × WorkflowControllerConfig :=
  match cm.data.lookup ConfigFileKey with
  | none =>
      (some ("ConfigMap " ++ cm.name ++ " does not have data key " ++ ConfigFileKey),
       current)
  | some data =>
    match parse data with
    | none => (some "unmarshal config data error", current)
    | some doc =>
      let c := unmarshalInto doc current
      if validate c then (none, c)
      else (some "validate config failed", c)

/-! Project list handler (ListProjects). -/

/-- A project item as listed by the handler; only identity is relevant. -/
structure Project where
  name : String
deriving DecidableEq, Repr

/-- Decidable equality for Except values, so concrete ListProjects runs
can be settled by decide. -/
instance exceptDecEq {α β : Type} [DecidableEq α] [DecidableEq β] :
    DecidableEq (Except α β) := fun x y =>
  match x, y with
  | .error a, .error b =>
      if h : a = b then .isTrue (by rw [h]) else .isFalse (by simp [h])
  | .ok a, .ok b =>
      if h : a = b then .isTrue (by rw [h]) else .isFalse (by simp [h])
  | .error _, .ok _ => .isFalse (by simp)
  | .ok _, .error _ => .isFalse (by simp)

/-- Go int64 arithmetic wraps on overflow: reduce an Int into the int64
value range [-2^63, 2^63). -/
def wrap64 (x : Int) : Int :=
  (x + 2 ^ 63) % 2 ^ 64 - 2 ^ 63

/-- Query parameters: start offset and page limit, Go int64 values (so
they lie in [-2^63, 2^63), and sums of them are taken with wrap64). -/
structure QueryParams where
  start : Int
  limit : Int
deriving DecidableEq, Repr

/-- types.ListResponse: total item count plus the returned page. -/
structure ListResponse where
  total : Int
  items : List Project
deriving DecidableEq, Repr

/-- types.NewListResponse constructor. -/
def NewListResponse (total : Int) (items : List Project) : ListResponse :=
  { total := total, items := items }

/-- Go slice expression items[lo:hi]: defined when 0 ≤ lo ≤ hi ≤ len,
otherwise a bounds panic, embedded as none. -/
def goSlice (xs : List Project) (lo hi : Int) : Option (List Project) :=
  if 0 ≤ lo ∧ lo ≤ hi ∧ hi ≤ (xs.length : Int) then
    some ((xs.drop lo.toNat).take (hi - lo).toNat)
  else
    none

/-- ListProjects: list the projects of the tenant and return the page
[start, start+limit) clamped to the list size. The k8s List call is
abstracted as the already-obtained listResult; end is computed with
int64 addition, which wraps on overflow; a slice bounds panic is
embedded as the error "slice bounds out of range". -/
def ListProjects (listResult : Except String (List Project))
    (query : QueryParams) : Except String ListResponse :=
  match listResult with
  | .error e => .error e
  | .ok items =>
    let size : Int := items.length
    if query.start ≥ size then
      .ok (NewListResponse size [])
    else
      let e0 := wrap64 (query.start + query.limit)
      let e1 := if e0 > size then size else e0
      match goSlice items query.start e1 with
      | some sub => .ok (NewListResponse size sub)
      | none => .error "slice bounds out of range"

/-! Concrete sample inputs used by witnesses. -/

/-- An operator whose writes all succeed. -/
def okOutcome : OperatorOutcome :=
  { updateStageStatusResult := fun _ _ => .ok ()
    updateStagePodInfoResult := fun _ _ => .ok () }

/-- An operator whose writes all fail with a conflict error. -/
def conflictOutcome : OperatorOutcome :=
  { updateStageStatusResult := fun _ _ => .error "write conflict"
    updateStagePodInfoResult := fun _ _ => .error "write conflict" }

/-- A stage configured with only the pod workload. -/
def samplePodStage : Stage :=
  { name := "stage1", ns := "ns1", spec := { pod := some { marker := () }, delegation := none } }

/-- A stage configured with only the delegation workload. -/
def sampleDelegationStage : Stage :=
  { name := "stage1", ns := "ns1",
    spec := { pod := none, delegation := some { url := "http://delegate.example" } } }

/-- A pod environment where build and create both succeed. -/
def samplePodEnvOk : PodEnv :=
  { buildResult := .ok { name := "pod1", ns := "ns1" }
    createResult := .ok { name := "pod1", ns := "ns1" }
    now := 5 }

/-- A delegation environment where the call succeeds and the re-read
shows the stage already Succeeded. -/
def sampleDenvTerminal : DelegationEnv :=
  { delegateResult := none
    getLatestResult := .ok
      { name := "wfr1", ns := "ns1",
        statusStages :=
          [("stage1",
            { status := { phase := .succeeded, reason := "r",
                          lastTransitionTime := 1, message := "m" } })] }
    now := 5 }

/-- A delegation environment where the call succeeds and the re-read
shows the stage still Running (not terminal). -/
def sampleDenvRunning : DelegationEnv :=
  { delegateResult := none
    getLatestResult := .ok
      { name := "wfr1", ns := "ns1",
        statusStages :=
          [("stage1",
            { status := { phase := .running, reason := "r",
                          lastTransitionTime := 1, message := "m" } })] }
    now := 5 }

/-! Claims. -/

/-- C1: for every delegation-stage execution where the delegation call
succeeds and the re-read shows the stage already in a terminal phase,
Process returns nil and the trace contains no stage status write, so the
terminal phase is never overwritten with Waiting. -/
theorem C1_terminal_phase_not_overwritten (stg : Stage) (penv : PodEnv)
    (denv : DelegationEnv) (oc : OperatorOutcome) (d : DelegationWorkload)
    (latest : WorkflowRun) (ss : StageStatus)
    (hpod : stg.spec.pod = none) (hdel : stg.spec.delegation = some d)
    (hcall : denv.delegateResult = none)
    (hget : denv.getLatestResult = .ok latest)
    (hstg : latest.statusStages.lookup stg.name = some ss)
    (hterm : IsPhaseTerminated ss.status.phase = true) :
    (Process stg penv denv oc).2 = none ∧
      ∀ s st, Effect.updateStageStatus s st ∉ (Process stg penv denv oc).1 := by
  simp [Process, processDelegation, hpod, hdel, hcall, hget, hstg, hterm]

/-- Witness for C1 at a concrete terminal-phase re-read. -/
theorem C1_terminal_phase_not_overwritten_witness :
    (Process sampleDelegationStage samplePodEnvOk sampleDenvTerminal okOutcome).2 = none ∧
      ∀ s st, Effect.updateStageStatus s st ∉
        (Process sampleDelegationStage samplePodEnvOk sampleDenvTerminal okOutcome).1 :=
  C1_terminal_phase_not_overwritten sampleDelegationStage samplePodEnvOk
    sampleDenvTerminal okOutcome { url := "http://delegate.example" }
    { name := "wfr1", ns := "ns1",
      statusStages :=
        [("stage1",
          { status := { phase := .succeeded, reason := "r",
                        lastTransitionTime := 1, message := "m" } })] }
    { status := { phase := .succeeded, reason := "r",
                  lastTransitionTime := 1, message := "m" } }
    rfl rfl rfl rfl (by decide) rfl

/-- C3: for every stage with both workload kinds set or neither set,
Process returns a configuration error with an empty effect trace (no
status writes, no pod-info writes, no recorder events). -/
theorem C3_invalid_workload_no_effects (stg : Stage) (penv : PodEnv)
    (denv : DelegationEnv) (oc : OperatorOutcome)
    (h : (stg.spec.pod.isSome ∧ stg.spec.delegation.isSome) ∨
         (stg.spec.pod = none ∧ stg.spec.delegation = none)) :
    (Process stg penv denv oc).1 = [] ∧ (Process stg penv denv oc).2.isSome := by
  rcases h with ⟨h1, h2⟩ | ⟨h1, h2⟩ <;> simp [Process, h1, h2]

/-- Witness for C3 at a concrete both-kinds-set stage. -/
theorem C3_invalid_workload_no_effects_witness :
    (Process { name := "stage1", ns := "ns1",
               spec := { pod := some { marker := () },
                         delegation := some { url := "http://delegate.example" } } }
        samplePodEnvOk sampleDenvRunning okOutcome).1 = [] ∧
    (Process { name := "stage1", ns := "ns1",
               spec := { pod := some { marker := () },
                         delegation := some { url := "http://delegate.example" } } }
        samplePodEnvOk sampleDenvRunning okOutcome).2.isSome :=
  C3_invalid_workload_no_effects _ samplePodEnvOk sampleDenvRunning okOutcome
    (Or.inl (by decide))

/-- C6: for every pod-stage execution where build and create both succeed,
the trace is exactly the StagePodCreated normal event, the watcher launch,
the Running status write (reason StagePodCreated) and the PodInfo write,
in that order — so the watcher starts before the Running write, and the
Running write precedes the PodInfo write. -/
theorem C6_pod_success_ordering (stg : Stage) (penv : PodEnv) (denv : DelegationEnv)
    (oc : OperatorOutcome) (po : PodWorkload) (b bp : BuiltPod)
    (hpod : stg.spec.pod = some po) (hdel : stg.spec.delegation = none)
    (hbuild : penv.buildResult = .ok b) (hcreate : penv.createResult = .ok bp) :
    Process stg penv denv oc =
      ([Effect.event .normal "StagePodCreated"
          ("Create pod for stage " ++ stg.name ++ " succeeded"),
        Effect.startPodEventWatcher stg.name bp.ns bp.name,
        Effect.updateStageStatus stg.name
          { phase := .running, reason := "StagePodCreated",
            lastTransitionTime := penv.now, message := "" },
        Effect.updateStagePodInfo stg.name { name := bp.name, ns := bp.ns }],
       none) := by
  simp [Process, processPod, hpod, hdel, hbuild, hcreate]

/-- Witness for C6 at a concrete successful pod submission. -/
theorem C6_pod_success_ordering_witness :
    Process samplePodStage samplePodEnvOk sampleDenvRunning okOutcome =
      ([Effect.event .normal "StagePodCreated"
          ("Create pod for stage " ++ samplePodStage.name ++ " succeeded"),
        Effect.startPodEventWatcher samplePodStage.name "ns1" "pod1",
        Effect.updateStageStatus samplePodStage.name
          { phase := .running, reason := "StagePodCreated",
            lastTransitionTime := samplePodEnvOk.now, message := "" },
        Effect.updateStagePodInfo samplePodStage.name { name := "pod1", ns := "ns1" }],
       none) :=
  C6_pod_success_ordering samplePodStage samplePodEnvOk sampleDenvRunning okOutcome
    { marker := () } { name := "pod1", ns := "ns1" } { name := "pod1", ns := "ns1" }
    rfl rfl rfl rfl

/-- C8: for every delegation-stage execution where the call succeeds, the
re-read succeeds, and the stage is absent from the status map or not in a
terminal phase, the trace is exactly the delegation call, one normal
DelegationSucceed event, the re-read, and a Waiting status write with
reason DelegationSucceed, and Process returns nil. -/
theorem C8_delegation_success_waiting (stg : Stage) (penv : PodEnv)
    (denv : DelegationEnv) (oc : OperatorOutcome) (d : DelegationWorkload)
    (latest : WorkflowRun)
    (hpod : stg.spec.pod = none) (hdel : stg.spec.delegation = some d)
    (hcall : denv.delegateResult = none)
    (hget : denv.getLatestResult = .ok latest)
    (hnt : ∀ ss, latest.statusStages.lookup stg.name = some ss →
        IsPhaseTerminated ss.status.phase = false) :
    Process stg penv denv oc =
      ([Effect.delegate d.url,
        Effect.event .normal "DelegationSucceed"
          ("Delegate stage " ++ stg.name ++ " to " ++ d.url ++ " succeeded"),
        Effect.getLatestWorkflowRun,
        Effect.updateStageStatus stg.name
          { phase := .waiting, reason := "DelegationSucceed",
            lastTransitionTime := denv.now, message := "" }],
       none) := by
  cases hlk : latest.statusStages.lookup stg.name with
  | none => simp [Process, processDelegation, hpod, hdel, hcall, hget, hlk]
  | some ss =>
      simp [Process, processDelegation, hpod, hdel, hcall, hget, hlk, hnt ss hlk]

/-- Witness for C8 at a concrete non-terminal re-read. -/
theorem C8_delegation_success_waiting_witness :
    Process sampleDelegationStage samplePodEnvOk sampleDenvRunning okOutcome =
      ([Effect.delegate "http://delegate.example",
        Effect.event .normal "DelegationSucceed"
          ("Delegate stage " ++ sampleDelegationStage.name ++ " to "
            ++ "http://delegate.example" ++ " succeeded"),
        Effect.getLatestWorkflowRun,
        Effect.updateStageStatus sampleDelegationStage.name
          { phase := .waiting, reason := "DelegationSucceed",
            lastTransitionTime := sampleDenvRunning.now, message := "" }],
       none) :=
  C8_delegation_success_waiting sampleDelegationStage samplePodEnvOk
    sampleDenvRunning okOutcome { url := "http://delegate.example" }
    { name := "wfr1", ns := "ns1",
      statusStages :=
        [("stage1",
          { status := { phase := .running, reason := "r",
                        lastTransitionTime := 1, message := "m" } })] }
    rfl rfl rfl rfl (by decide)

/-- C9: the operator write results are discarded on every path of
processPod and processDelegation — the outcome of every UpdateStageStatus
and UpdateStagePodInfo call is invisible in both the trace and the
returned error — and after a successful build and pod creation processPod
returns nil regardless of those outcomes. -/
theorem C9_operator_results_discarded (stg : Stage) (penv : PodEnv)
    (denv : DelegationEnv) (oc oc' : OperatorOutcome) :
    processPod stg penv oc = processPod stg penv oc' ∧
    processDelegation stg denv oc = processDelegation stg denv oc' ∧
    (∀ b bp, penv.buildResult = .ok b → penv.createResult = .ok bp →
      (processPod stg penv oc).2 = none) := by
  refine ⟨rfl, rfl, fun b bp hb hc => ?_⟩
  simp [processPod, hb, hc]

/-- Witness for C9: a succeeding and a failing operator yield the same
execution, and the successful-creation run returns nil. -/
theorem C9_operator_results_discarded_witness :
    processPod samplePodStage samplePodEnvOk okOutcome =
        processPod samplePodStage samplePodEnvOk conflictOutcome ∧
    processDelegation samplePodStage sampleDenvRunning okOutcome =
        processDelegation samplePodStage sampleDenvRunning conflictOutcome ∧
    (∀ b bp, samplePodEnvOk.buildResult = .ok b →
      samplePodEnvOk.createResult = .ok bp →
      (processPod samplePodStage samplePodEnvOk okOutcome).2 = none) :=
  C9_operator_results_discarded samplePodStage samplePodEnvOk sampleDenvRunning
    okOutcome conflictOutcome

/-- Counterexample to C2 as stated: at a concrete failed pod submission
the trace carries no warning event with reason CreatePodError — the
single warning event is recorded under reason StagePodCreated. -/
theorem C2_counterexample :
    (∀ m, Effect.event .warning "CreatePodError" m ∉
      (processPod samplePodStage
        { buildResult := .ok { name := "pod1", ns := "ns1" },
          createResult := .error { msg := "boom", exceededQuota := false },
          now := 5 } okOutcome).1) ∧
    Effect.event .warning "StagePodCreated" "Create pod for stage stage1 error: boom" ∈
      (processPod samplePodStage
        { buildResult := .ok { name := "pod1", ns := "ns1" },
          createResult := .error { msg := "boom", exceededQuota := false },
          now := 5 } okOutcome).1 := by
  constructor
  · intro m
    simp [processPod, samplePodStage]
  · simp [processPod, samplePodStage]

/-- C2 amended: for every pod-stage execution where the build succeeds and
submission fails, processPod writes a stage status whose phase is Pending
for a quota-exceeded error and Failed otherwise, with status reason
CreatePodError, and records exactly one warning event — whose reason is
StagePodCreated, not CreatePodError — before returning the error. -/
theorem C2_amended_create_failure (stg : Stage) (penv : PodEnv)
    (oc : OperatorOutcome) (b : BuiltPod) (e : CreatePodError)
    (hbuild : penv.buildResult = .ok b) (hcreate : penv.createResult = .error e) :
    processPod stg penv oc =
      ([Effect.event .warning "StagePodCreated"
          ("Create pod for stage " ++ stg.name ++ " error: " ++ e.msg),
        Effect.updateStageStatus stg.name
          { phase := if e.exceededQuota then .pending else .failed,
            reason := "CreatePodError",
            lastTransitionTime := penv.now,
            message := "Failed to create pod: " ++ e.msg }],
       some ("create pod: " ++ e.msg)) := by
  simp [processPod, hbuild, hcreate]

/-- Witness for the amended C2 at a concrete quota-exceeded failure. -/
theorem C2_amended_create_failure_witness :
    processPod samplePodStage
        { buildResult := .ok { name := "pod1", ns := "ns1" },
          createResult := .error { msg := "quota exceeded", exceededQuota := true },
          now := 5 } okOutcome =
      ([Effect.event .warning "StagePodCreated"
          ("Create pod for stage " ++ samplePodStage.name ++ " error: " ++ "quota exceeded"),
        Effect.updateStageStatus samplePodStage.name
          { phase := if (true : Bool) then .pending else .failed,
            reason := "CreatePodError",
            lastTransitionTime := 5,
            message := "Failed to create pod: " ++ "quota exceeded" }],
       some ("create pod: " ++ "quota exceeded")) :=
  C2_amended_create_failure samplePodStage _ okOutcome
    { name := "pod1", ns := "ns1" } { msg := "quota exceeded", exceededQuota := true }
    rfl rfl

/-- Counterexample to C5 as stated: a concrete delegation-stage execution
(exactly one workload kind, so the error is not the upfront validation
error) where the delegation call succeeds but the re-read fails returns a
non-nil error with no stage status write of any phase in the trace. -/
theorem C5_counterexample :
    sampleDelegationStage.spec.pod = none ∧
    sampleDelegationStage.spec.delegation.isSome = true ∧
    (Process sampleDelegationStage samplePodEnvOk
      { delegateResult := none, getLatestResult := .error "connection refused", now := 5 }
      okOutcome).2 = some "connection refused" ∧
    ∀ s st, Effect.updateStageStatus s st ∉
      (Process sampleDelegationStage samplePodEnvOk
        { delegateResult := none, getLatestResult := .error "connection refused", now := 5 }
        okOutcome).1 := by
  refine ⟨rfl, rfl, rfl, fun s st => ?_⟩
  simp [Process, processDelegation, sampleDelegationStage]

/-- C5 amended: for every execution of Process with exactly one workload
kind configured that returns a non-nil error, either a stage status write
with a path-specific reason (GeneratePodError, CreatePodError or
DelegationFailure) and phase Failed — or Pending, only for quota-exceeded
pod submission failures — was attempted before the error was returned, or
the error came from the delegation re-read failure path, which performs
no status write at all. -/
theorem C5_amended_error_paths (stg : Stage) (penv : PodEnv)
    (denv : DelegationEnv) (oc : OperatorOutcome) (e : String)
    (hexcl : stg.spec.pod.isSome ≠ stg.spec.delegation.isSome)
    (herr : (Process stg penv denv oc).2 = some e) :
    (∃ st, Effect.updateStageStatus stg.name st ∈ (Process stg penv denv oc).1 ∧
       (st.phase = .failed ∨ st.phase = .pending) ∧
       (st.phase = .pending →
         ∃ ce, penv.createResult = .error ce ∧ ce.exceededQuota = true) ∧
       (st.reason = "GeneratePodError" ∨ st.reason = "CreatePodError" ∨
         st.reason = "DelegationFailure")) ∨
    (stg.spec.delegation.isSome = true ∧ denv.delegateResult = none ∧
       (∃ ge, denv.getLatestResult = .error ge) ∧
       ∀ s st, Effect.updateStageStatus s st ∉ (Process stg penv denv oc).1) := by
  cases hp : stg.spec.pod with
  | some po =>
    cases hd : stg.spec.delegation with
    | some d => rw [hp, hd] at hexcl; simp at hexcl
    | none =>
      left
      cases hb : penv.buildResult with
      | error be =>
        refine ⟨{ phase := .failed, reason := "GeneratePodError",
                  lastTransitionTime := penv.now,
                  message := "Failed to generate pod: " ++ be },
                ?_, Or.inl rfl, by simp, Or.inl rfl⟩
        simp [Process, processPod, hp, hd, hb]
      | ok b =>
        cases hc : penv.createResult with
        | error ce =>
          cases hq : ce.exceededQuota with
          | false =>
            refine ⟨{ phase := .failed, reason := "CreatePodError",
                      lastTransitionTime := penv.now,
                      message := "Failed to create pod: " ++ ce.msg },
                    ?_, Or.inl rfl, by simp, Or.inr (Or.inl rfl)⟩
            simp [Process, processPod, hp, hd, hb, hc, hq]
          | true =>
            refine ⟨{ phase := .pending, reason := "CreatePodError",
                      lastTransitionTime := penv.now,
                      message := "Failed to create pod: " ++ ce.msg },
                    ?_, Or.inr rfl, fun _ => ⟨ce, rfl, hq⟩, Or.inr (Or.inl rfl)⟩
            simp [Process, processPod, hp, hd, hb, hc, hq]
        | ok bp =>
          exfalso
          rw [Process] at herr
          simp [hp, hd, processPod, hb, hc] at herr
  | none =>
    cases hd : stg.spec.delegation with
    | none => rw [hp, hd] at hexcl; simp at hexcl
    | some d =>
      cases hcall : denv.delegateResult with
      | some de =>
        left
        refine ⟨{ phase := .failed, reason := "DelegationFailure",
                  lastTransitionTime := denv.now,
                  message := "Delegate error: " ++ de },
                ?_, Or.inl rfl, by simp, Or.inr (Or.inr rfl)⟩
        simp [Process, processDelegation, hp, hd, hcall]
      | none =>
        cases hget : denv.getLatestResult with
        | error ge =>
          right
          refine ⟨by simp, rfl, ⟨ge, rfl⟩, fun s st => ?_⟩
          simp [Process, processDelegation, hp, hd, hcall, hget]
        | ok latest =>
          exfalso
          rw [Process] at herr
          cases hlk : latest.statusStages.lookup stg.name with
          | some ss =>
            cases hterm : IsPhaseTerminated ss.status.phase with
            | true => simp [hp, hd, processDelegation, hcall, hget, hlk, hterm] at herr
            | false => simp [hp, hd, processDelegation, hcall, hget, hlk, hterm] at herr
          | none => simp [hp, hd, processDelegation, hcall, hget, hlk] at herr

/-- Witness for the amended C5 at a concrete failed delegation call. -/
theorem C5_amended_error_paths_witness :
    (∃ st, Effect.updateStageStatus sampleDelegationStage.name st ∈
       (Process sampleDelegationStage samplePodEnvOk
         { delegateResult := some "refused", getLatestResult := .error "x", now := 5 }
         okOutcome).1 ∧
       (st.phase = .failed ∨ st.phase = .pending) ∧
       (st.phase = .pending →
         ∃ ce, samplePodEnvOk.createResult = .error ce ∧ ce.exceededQuota = true) ∧
       (st.reason = "GeneratePodError" ∨ st.reason = "CreatePodError" ∨
         st.reason = "DelegationFailure")) ∨
    (sampleDelegationStage.spec.delegation.isSome = true ∧
       (some "refused" : Option String) = none ∧
       (∃ ge, (.error "x" : Except String WorkflowRun) = .error ge) ∧
       ∀ s st, Effect.updateStageStatus s st ∉
         (Process sampleDelegationStage samplePodEnvOk
           { delegateResult := some "refused", getLatestResult := .error "x", now := 5 }
           okOutcome).1) :=
  C5_amended_error_paths sampleDelegationStage samplePodEnvOk
    { delegateResult := some "refused", getLatestResult := .error "x", now := 5 }
    okOutcome "refused" (by decide) rfl

/-- Helper: a PodInfo write appears in the Process trace exactly when the
stage is pod-configured and both the build and the create succeeded. -/
theorem mem_updateStagePodInfo_iff (stg : Stage) (penv : PodEnv)
    (denv : DelegationEnv) (oc : OperatorOutcome) :
    (∃ s i, Effect.updateStagePodInfo s i ∈ (Process stg penv denv oc).1) ↔
      (stg.spec.pod.isSome = true ∧ stg.spec.delegation = none ∧
        (∃ b, penv.buildResult = .ok b) ∧ (∃ bp, penv.createResult = .ok bp)) := by
  cases hp : stg.spec.pod with
  | some po =>
    cases hd : stg.spec.delegation with
    | some d => simp [Process, hp, hd]
    | none =>
      cases hb : penv.buildResult with
      | error be => simp [Process, processPod, hp, hd, hb]
      | ok b =>
        cases hc : penv.createResult with
        | error ce => simp [Process, processPod, hp, hd, hb, hc]
        | ok bp => simp [Process, processPod, hp, hd, hb, hc]
  | none =>
    cases hd : stg.spec.delegation with
    | none => simp [Process, hp, hd]
    | some d =>
      cases hcall : denv.delegateResult with
      | some de => simp [Process, processDelegation, hp, hd, hcall]
      | none =>
        cases hget : denv.getLatestResult with
        | error ge => simp [Process, processDelegation, hp, hd, hcall, hget]
        | ok latest =>
          cases hlk : latest.statusStages.lookup stg.name with
          | some ss =>
            cases hterm : IsPhaseTerminated ss.status.phase with
            | true => simp [Process, processDelegation, hp, hd, hcall, hget, hlk, hterm]
            | false => simp [Process, processDelegation, hp, hd, hcall, hget, hlk, hterm]
          | none => simp [Process, processDelegation, hp, hd, hcall, hget, hlk]

/-- Helper: a Running-phase status write appears in the Process trace
exactly when the stage is pod-configured and both the build and the
create succeeded. -/
theorem mem_running_update_iff (stg : Stage) (penv : PodEnv)
    (denv : DelegationEnv) (oc : OperatorOutcome) :
    (∃ s st, Effect.updateStageStatus s st ∈ (Process stg penv denv oc).1 ∧
        st.phase = .running) ↔
      (stg.spec.pod.isSome = true ∧ stg.spec.delegation = none ∧
        (∃ b, penv.buildResult = .ok b) ∧ (∃ bp, penv.createResult = .ok bp)) := by
  cases hp : stg.spec.pod with
  | some po =>
    cases hd : stg.spec.delegation with
    | some d => simp [Process, hp, hd]
    | none =>
      cases hb : penv.buildResult with
      | error be => simp [Process, processPod, hp, hd, hb]
      | ok b =>
        cases hc : penv.createResult with
        | error ce =>
          cases hq : ce.exceededQuota with
          | false => simp [Process, processPod, hp, hd, hb, hc, hq]
          | true => simp [Process, processPod, hp, hd, hb, hc, hq]
        | ok bp =>
          simp [Process, processPod, hp, hd, hb, hc]
          exact ⟨stg.name,
            { phase := .running, reason := "StagePodCreated",
              lastTransitionTime := penv.now, message := "" },
            ⟨rfl, rfl⟩, rfl⟩
  | none =>
    cases hd : stg.spec.delegation with
    | none => simp [Process, hp, hd]
    | some d =>
      cases hcall : denv.delegateResult with
      | some de => simp [Process, processDelegation, hp, hd, hcall]
      | none =>
        cases hget : denv.getLatestResult with
        | error ge => simp [Process, processDelegation, hp, hd, hcall, hget]
        | ok latest =>
          cases hlk : latest.statusStages.lookup stg.name with
          | some ss =>
            cases hterm : IsPhaseTerminated ss.status.phase with
            | true => simp [Process, processDelegation, hp, hd, hcall, hget, hlk, hterm]
            | false => simp [Process, processDelegation, hp, hd, hcall, hget, hlk, hterm]
          | none => simp [Process, processDelegation, hp, hd, hcall, hget, hlk]

/-- C7: across all executions of Process, a PodInfo write occurs iff a
Running-phase status write occurs, and both occur exactly when the stage
is pod-configured and pod creation succeeded — no failure path and no
delegation path ever writes PodInfo. -/
theorem C7_podinfo_iff_running_pod_path (stg : Stage) (penv : PodEnv)
    (denv : DelegationEnv) (oc : OperatorOutcome) :
    ((∃ s i, Effect.updateStagePodInfo s i ∈ (Process stg penv denv oc).1) ↔
      (∃ s st, Effect.updateStageStatus s st ∈ (Process stg penv denv oc).1 ∧
        st.phase = .running)) ∧
    ((∃ s i, Effect.updateStagePodInfo s i ∈ (Process stg penv denv oc).1) ↔
      (stg.spec.pod.isSome = true ∧ stg.spec.delegation = none ∧
        (∃ b, penv.buildResult = .ok b) ∧ (∃ bp, penv.createResult = .ok bp))) :=
  ⟨(mem_updateStagePodInfo_iff stg penv denv oc).trans
      (mem_running_update_iff stg penv denv oc).symm,
    mem_updateStagePodInfo_iff stg penv denv oc⟩

/-- A baseline active configuration with every required image key. -/
def C4oldConfig : WorkflowControllerConfig :=
  { images := [("git-resolver", "g:v1"), ("image-resolver", "i:v1"),
               ("kv-resolver", "k:v1"), ("coordinator", "c:v1")]
    logging := { level := "info" }
    gc := { enabled := true, delaySeconds := 0, retryCount := 0 }
    limits := { maxWorkflowRuns := 10 }
    resourceRequirements := { limits := [], requests := [] }
    pvc := "pvc1"
    secret := "secret1"
    cycloneServerAddr := "cyclone-server" }

/-- A well-formed configuration document whose images object lacks the
required image-resolver key. -/
def C4document : ConfigDocument :=
  { images := some [("git-resolver", "g:v2"), ("kv-resolver", "k:v2"),
                    ("coordinator", "c:v2")]
    logging := some { level := "debug" }
    gc := some { enabled := false, delaySeconds := 0, retryCount := 0 }
    limits := some { maxWorkflowRuns := 5 }
    resourceRequirements := some { limits := [], requests := [] }
    pvc := some ""
    secret := some ""
    cycloneServerAddr := some "cyclone-server" }

/-- The JSON layer for that concrete document: it parses to C4document. -/
def C4parse : String → Option ConfigDocument :=
  fun _ => some C4document

/-- A ConfigMap carrying that document under the config file key. -/
def C4configMap : ConfigMap :=
  { name := "workflow-controller-config"
    data := [("workflow-controller.json", "document without image-resolver")] }

/-- C4 is violated by the code on the first load: with the process-wide
Config still at its zero value (nil images map), a document that decodes
but fails validation (missing image-resolver) makes LoadConfig return an
error while Config has been filled with the values of the invalid
document, because the code unmarshals into the global before validating.
The last conjunct shows why a later reload cannot exhibit this validate
failure: decoding the same document over an already valid configuration
merges per key, the old image-resolver entry survives, and LoadConfig
succeeds. -/
theorem C4_failed_load_mutates_config :
    (LoadConfig C4configMap C4parse zeroConfig).1 = some "validate config failed" ∧
    (LoadConfig C4configMap C4parse zeroConfig).2 ≠ zeroConfig ∧
    (LoadConfig C4configMap C4parse C4oldConfig).1 = none := by
  refine ⟨?_, ?_, ?_⟩ <;> decide

/-- Counterexample to C10 as stated: on a two-element list, Start = 1
and Limit = 2^63 - 1 satisfy the nonnegativity hypotheses, but the Go
int64 sum Start+Limit wraps to -2^63, the end-clamp does not fire, and
the slice expression panics instead of returning the claimed sub-slice
with in-range bounds. -/
theorem C10_counterexample :
    (0 : Int) ≤ 1 ∧ (0 : Int) ≤ 2 ^ 63 - 1 ∧
    ListProjects (.ok [{ name := "p1" }, { name := "p2" }])
        { start := 1, limit := 2 ^ 63 - 1 } =
      .error "slice bounds out of range" := by
  refine ⟨by decide, by decide, by decide⟩

/-- C10 amended: for every project list and query with nonnegative start
and limit whose int64 sum start+limit does not overflow, ListProjects
succeeds (the slice bounds stay inside the list) with total equal to the
list length and items equal to the sub-slice from start to
min(start+limit, length); in particular start at or past the end yields
the empty page. When start+limit overflows int64 and start is inside the
list, the slice expression panics instead. -/
theorem C10_amended_pagination_no_overflow (projects : List Project) (q : QueryParams)
    (hs : 0 ≤ q.start) (hl : 0 ≤ q.limit) (hno : q.start + q.limit < 2 ^ 63) :
    ListProjects (.ok projects) q =
      .ok { total := (projects.length : Int)
            items := (projects.drop q.start.toNat).take
              ((min (q.start + q.limit) (projects.length : Int)) - q.start).toNat } := by
  have hw : wrap64 (q.start + q.limit) = q.start + q.limit := by
    unfold wrap64
    omega
  rcases le_or_lt ((projects.length : Nat) : Int) q.start with hge | hlt
  · have h2 : ((min (q.start + q.limit) ((projects.length : Nat) : Int)) - q.start).toNat = 0 := by
      omega
    rw [h2]
    simp [ListProjects, NewListResponse, hge]
  · have he1 : (if q.start + q.limit > ((projects.length : Nat) : Int)
          then ((projects.length : Nat) : Int) else q.start + q.limit)
        = min (q.start + q.limit) ((projects.length : Nat) : Int) := by
      rcases le_or_lt (q.start + q.limit) ((projects.length : Nat) : Int) with h | h
      · rw [if_neg (not_lt.mpr h), min_eq_left h]
      · rw [if_pos h, min_eq_right h.le]
    have hcond : ¬ (q.start ≥ ((projects.length : Nat) : Int)) := not_le.mpr hlt
    have hok : 0 ≤ q.start ∧
        q.start ≤ (if q.start + q.limit > ((projects.length : Nat) : Int)
          then ((projects.length : Nat) : Int) else q.start + q.limit) ∧
        (if q.start + q.limit > ((projects.length : Nat) : Int)
          then ((projects.length : Nat) : Int) else q.start + q.limit)
          ≤ ((projects.length : Nat) : Int) := by
      refine ⟨hs, ?_, ?_⟩ <;> split <;> omega
    simp only [ListProjects, NewListResponse, goSlice]
    rw [if_neg hcond, hw, if_pos hok, he1]

/-- A concrete three-element project list. -/
def sampleProjects : List Project :=
  [{ name := "p1" }, { name := "p2" }, { name := "p3" }]

/-- A concrete query selecting the page starting at 1 of size 2. -/
def sampleQuery : QueryParams :=
  { start := 1, limit := 2 }

/-- Witness for the amended C10 at a concrete three-element list and
page [1, 3). -/
theorem C10_amended_pagination_no_overflow_witness :
    ListProjects (.ok sampleProjects) sampleQuery =
      .ok { total := (sampleProjects.length : Int)
            items := (sampleProjects.drop sampleQuery.start.toNat).take
              ((min (sampleQuery.start + sampleQuery.limit)
                (sampleProjects.length : Int)) - sampleQuery.start).toNat } :=
  C10_amended_pagination_no_overflow sampleProjects sampleQuery
    (by decide) (by decide) (by decide)

end Cyclone
